import Mathlib

/- Verification development for the message-polling, session and display
   logic of examples/python-client/lair_chat_client.py (class LairChatClient).
   The polling loop (poll_messages, lines 310-328) is count-based: it keeps a
   cursor last_message_count, fetches a window of messages each cycle, and when
   the window is longer than the cursor it delivers the suffix past the cursor
   and advances the cursor to the window length. -/

namespace LairChat

/-- One iteration of the count-based delivery logic in the polling loop body
(poll_messages, lines 317-322): given the cursor last_message_count and the
fetched window, return the updated cursor and the list of messages handed to
display in this cycle. -/
def pollCycle {α : Type} (cursor : Nat) (messages : List α) : Nat × List α :=
  if messages.length > cursor then (messages.length, messages.drop cursor)
  else (cursor, [])

/-- A whole run of the polling loop over a sequence of fetched windows:
returns the final cursor and the concatenation of all delivered messages,
starting from last_message_count = cursor. -/
def pollRun {α : Type} (cursor : Nat) : List (List α) → Nat × List α
  | [] => (cursor, [])
  | w :: ws =>
    let s := pollCycle cursor w
    let r := pollRun s.1 ws
    (r.1, s.2 ++ r.2)

/-- Model of get_messages (lines 253-270): a transport or API failure raised
by the request is caught, reported by printing, and an empty list is returned;
a successful response yields its data list.  The second component is the error
report printed, when any. -/
def get_messages {α : Type} (r : Except String (List α)) : List α × Option String :=
  match r with
  | .ok ms => (ms, none)
  | .error e => ([], some ("Failed to get messages: " ++ e))

/-- Observable events of one polling thread: the fetch attempt, an error
report printed by get_messages, each delivered message, and the sleep of
interval seconds ending a cycle. -/
inductive Ev (α : Type) where
  | fetchAttempt : Ev α
  | errorReported : String → Ev α
  | delivered : α → Ev α
  | slept : Ev α
deriving DecidableEq

/-- Events of one cycle of poll_messages (lines 313-328): a fetch attempt,
then the error report when the fetch failed, then the messages delivered in
this cycle, then the sleep.  The first component is the updated cursor. -/
def cycleEvents {α : Type} (cursor : Nat) (r : Except String (List α)) :
    Nat × List (Ev α) :=
  let g := get_messages r
  let p := pollCycle cursor g.1
  (p.1, Ev.fetchAttempt ::
    ((match g.2 with | some e => [Ev.errorReported e] | none => []) ++
      p.2.map Ev.delivered ++ [Ev.slept]))

/-- Event trace of the polling loop over a sequence of fetch outcomes. -/
def pollLoop {α : Type} (cursor : Nat) : List (Except String (List α)) → List (Ev α)
  | [] => []
  | r :: rs => (cycleEvents cursor r).2 ++ pollLoop (cycleEvents cursor r).1 rs

/-- The cursor after the loop has processed a sequence of fetch outcomes. -/
def cursorAfter {α : Type} (cursor : Nat) (rs : List (Except String (List α))) : Nat :=
  rs.foldl (fun c r => (cycleEvents c r).1) cursor

/-- Helper: when every fetched window is a prefix of one fixed arrival
stream, a polling run from cursor c delivers exactly the contiguous slice of
the stream between the initial and the final cursor. -/
theorem pollRun_delivers_slice {α : Type} (stream : List α) :
    ∀ (ws : List (List α)) (c : Nat), (∀ w ∈ ws, w <+: stream) →
      c ≤ (pollRun c ws).1 ∧
        (pollRun c ws).2 = (stream.drop c).take ((pollRun c ws).1 - c)
  | [], c, _ => by simp [pollRun]
  | w :: ws, c, h => by
    have hw : w <+: stream := h w (List.mem_cons_self w ws)
    have hrest : ∀ w' ∈ ws, w' <+: stream := fun w' hw' => h w' (List.mem_cons_of_mem w hw')
    by_cases hlen : w.length > c
    · obtain ⟨h1, h2⟩ := pollRun_delivers_slice stream ws w.length hrest
      have hwt : w = stream.take w.length := List.prefix_iff_eq_take.mp hw
      constructor
      · simpa [pollRun, pollCycle, hlen] using le_trans (Nat.le_of_lt hlen) h1
      · simp only [pollRun, pollCycle, if_pos hlen]
        rw [h2]
        have e1 : w.drop c = (stream.drop c).take (w.length - c) := by
          conv_lhs => rw [hwt]
          exact List.drop_take w.length c stream
        have e2 : stream.drop w.length = (stream.drop c).drop (w.length - c) := by
          rw [List.drop_drop]
          congr 1
          omega
        rw [e1, e2, ← List.take_add]
        congr 1
        omega
    · obtain ⟨h1, h2⟩ := pollRun_delivers_slice stream ws c hrest
      constructor
      · simpa [pollRun, pollCycle, hlen] using h1
      · simpa [pollRun, pollCycle, hlen] using h2

/-- Claim C1 fails as stated: over the fetch-result sequence
[[3,4,5],[1,2,3,4,5]] (the server window first starts at message 3, then
grows back so that messages 1 and 2 reappear in front), the count-based loop
delivers message 4 twice. -/
theorem claim_C1_counterexample :
    ¬ ((pollRun 0 ([[3,4,5],[1,2,3,4,5]] : List (List Nat))).2.count 4 ≤ 1) := by
  decide

/-- Claim C1 (amended): when every fetched window is a prefix of one fixed
arrival stream whose message identifiers are pairwise distinct — i.e. windows
only grow by appending new messages at the end, which the count-based loop
assumes — each message is delivered at most once over the loop's lifetime,
including windows that shrink and then grow again. -/
theorem claim_C1_no_duplication {α : Type} [DecidableEq α] (stream : List α)
    (ws : List (List α)) (hpre : ∀ w ∈ ws, w <+: stream) (hnd : stream.Nodup)
    (x : α) : (pollRun 0 ws).2.count x ≤ 1 := by
  obtain ⟨-, h2⟩ := pollRun_delivers_slice stream ws 0 hpre
  rw [List.drop_zero] at h2
  have hsub : List.Sublist (pollRun 0 ws).2 stream := by
    rw [h2]
    exact List.take_sublist _ _
  exact List.nodup_iff_count_le_one.mp (hnd.sublist hsub) x

/-- Witness for claim C1 on a concrete run: stream [1,2], windows [1] then
[1,2]; message 2 is delivered at most once. -/
theorem claim_C1_no_duplication_witness :
    (pollRun 0 ([[1],[1,2]] : List (List Nat))).2.count 2 ≤ 1 :=
  claim_C1_no_duplication [1,2] [[1],[1,2]] (by decide) (by decide) 2

/-- Claim C6 fails as stated: over the fetch-result sequence [[5],[1,2]],
cycle 1 delivers message 5 and cycle 2 delivers message 2, so a later cycle
delivers a message that precedes one already delivered. -/
theorem claim_C6_counterexample :
    ¬ List.Pairwise (· ≤ ·) (pollRun 0 ([[5],[1,2]] : List (List Nat))).2 := by
  decide

/-- Claim C6 (amended): within each cycle the delivered batch is a suffix of
the fetched window, in fetched order; and when every fetched window is a
prefix of one fixed arrival stream, the whole delivered sequence is an
initial segment of the stream, hence in non-decreasing arrival order. -/
theorem claim_C6_order_preservation {α : Type} (stream : List α)
    (ws : List (List α)) (hpre : ∀ w ∈ ws, w <+: stream) :
    (pollRun 0 ws).2 = stream.take (pollRun 0 ws).1 ∧
      ∀ (c : Nat) (w : List α), (pollCycle c w).2 <:+ w := by
  constructor
  · obtain ⟨-, h2⟩ := pollRun_delivers_slice stream ws 0 hpre
    rw [List.drop_zero, Nat.sub_zero] at h2
    exact h2
  · intro c w
    by_cases h : w.length > c
    · simpa [pollCycle, h] using List.drop_suffix c w
    · simp [pollCycle, h]

/-- Witness for claim C6 on a concrete run: stream [1,2], windows [1] then
[1,2]; the delivered sequence is an initial segment of the stream. -/
theorem claim_C6_order_preservation_witness :
    (pollRun 0 ([[1],[1,2]] : List (List Nat))).2 =
      [1,2].take (pollRun 0 ([[1],[1,2]] : List (List Nat))).1 :=
  (claim_C6_order_preservation [1,2] [[1],[1,2]] (by decide)).1

/-- Each single cycle leaves the cursor no smaller, whatever the fetch
outcome. -/
theorem cycleEvents_cursor_mono {α : Type} (c : Nat) (r : Except String (List α)) :
    c ≤ (cycleEvents c r).1 := by
  cases r with
  | ok ms =>
    by_cases h : ms.length > c
    · simp [cycleEvents, get_messages, pollCycle, h]
      omega
    · simp [cycleEvents, get_messages, pollCycle, h]
  | error e => simp [cycleEvents, get_messages, pollCycle]

/-- Claim C4: the loop's cursor (last_message_count) never decreases during
the loop's lifetime: at every step of any run — including a window shorter
than previously observed and a failed fetch — the cursor after one more
processed fetch outcome is at least what it was before. -/
theorem claim_C4_monotonic_cursor {α : Type} (c : Nat)
    (rs : List (Except String (List α))) (n : Nat) :
    cursorAfter c (rs.take n) ≤ cursorAfter c (rs.take (n + 1)) := by
  rw [List.take_succ]
  cases hg : rs[n]? with
  | none => simp [cursorAfter]
  | some r =>
    simp [cursorAfter, List.foldl_append]
    exact cycleEvents_cursor_mono _ r

/-- Claim C5: a failed fetch does not terminate the loop: the cycle prints
the error report and sleeps, the cursor is unchanged, and the loop then
continues on the remaining fetch outcomes exactly as it otherwise would. -/
theorem claim_C5_resilience {α : Type} (c : Nat) (e : String)
    (rs : List (Except String (List α))) :
    pollLoop c (Except.error e :: rs) =
      Ev.fetchAttempt :: Ev.errorReported ("Failed to get messages: " ++ e) ::
        Ev.slept :: pollLoop c rs := by
  simp [pollLoop, cycleEvents, get_messages, pollCycle]

/-- Claim C8: the first fetch is not delayed by the interval: the very first
event of any run of the loop with at least one cycle is the fetch attempt,
which therefore precedes the first sleep. -/
theorem claim_C8_immediate_first_fetch {α : Type} (c : Nat)
    (r : Except String (List α)) (rs : List (Except String (List α))) :
    (pollLoop c (r :: rs)).head? = some Ev.fetchAttempt := by
  simp [pollLoop, cycleEvents]

/-- The mutable attributes of a LairChatClient object that the session
lifecycle methods touch (lines 38-49): the auth token, the cached user info
and current room (dictionaries, modelled as key-value lists), the polling
flag and thread, the room id being polled, and the session headers. -/
structure Client where
  token : Option String
  user_info : Option (List (String × String))
  current_room : Option (List (String × String))
  message_polling : Bool
  polling_thread : Bool
  current_room_id : Option String
  headers : List (String × String)
deriving DecidableEq

/-- Model of stop_message_polling (lines 335-341): when the polling flag is
set it is cleared and the thread is joined with a 1-second timeout (the join
and the print change no client attribute); otherwise nothing happens. -/
def stop_message_polling (c : Client) : Client :=
  if c.message_polling then { c with message_polling := false } else c

/-- Model of start_message_polling (lines 296-333): if a loop is already
running, stop_message_polling is called first; then the polling flag is set,
the room id recorded, and a new polling thread is created and started.  The
interval argument is not validated anywhere — it is only captured by the
thread's closure for its sleeps — and the method never raises. -/
def start_message_polling (c : Client) (room_id : String) (interval : ℚ) : Client :=
  let c1 := if c.message_polling then stop_message_polling c else c
  { c1 with
    message_polling := true
    current_room_id := some room_id
    polling_thread := true }

/-- Model of logout (lines 167-178): stop polling, delete the Authorization
header when present, and clear token, user info and current room. -/
def logout (c : Client) : Client :=
  let c1 := stop_message_polling c
  let c2 := { c1 with headers := c1.headers.filter (fun kv => kv.1 != "Authorization") }
  { c2 with token := none, user_info := none, current_room := none }

/-- A client freshly constructed by LairChatClient.__init__ (lines 31-49). -/
def initClient : Client :=
  { token := none
    user_info := none
    current_room := none
    message_polling := false
    polling_thread := false
    current_room_id := none
    headers := [("Content-Type", "application/json"),
                ("User-Agent", "LairChatPythonClient/1.0")] }

/-- A concrete logged-in client with a running polling loop, as left by
login (lines 149-158) followed by start_message_polling. -/
def demoClient : Client :=
  { token := some "tok123"
    user_info := some [("username", "alice")]
    current_room := some [("id", "room1")]
    message_polling := true
    polling_thread := true
    current_room_id := some "room1"
    headers := [("Content-Type", "application/json"),
                ("User-Agent", "LairChatPythonClient/1.0"),
                ("Authorization", "Bearer tok123")] }

/-- Claim C7 fails as stated: start_message_polling with the non-positive
interval -1 is not rejected — the polling flag is set and a polling thread is
created all the same. -/
theorem claim_C7_counterexample :
    (start_message_polling initClient "room1" (-1)).message_polling = true ∧
      (start_message_polling initClient "room1" (-1)).polling_thread = true := by
  constructor <;> rfl

/-- Claim C7 (amended): start_message_polling performs no validation of the
interval: for every client state, room id and interval — non-positive
intervals included — the call returns normally with the polling flag set and
a polling thread created. -/
theorem claim_C7_no_interval_validation (c : Client) (room_id : String) (interval : ℚ) :
    (start_message_polling c room_id interval).message_polling = true ∧
      (start_message_polling c room_id interval).polling_thread = true := by
  constructor <;> rfl

/-- Helper: the explicit effect of logout on every client attribute. -/
theorem logout_eq (c : Client) :
    logout c =
      { token := none
        user_info := none
        current_room := none
        message_polling := false
        polling_thread := c.polling_thread
        current_room_id := c.current_room_id
        headers := c.headers.filter (fun kv => kv.1 != "Authorization") } := by
  unfold logout stop_message_polling
  by_cases h : c.message_polling <;> simp [h]

/-- Claim C10: for every client state, after logout the token, user info and
current room are cleared, the session headers hold no Authorization entry,
and a second logout leaves the resulting state unchanged. -/
theorem claim_C10_logout (c : Client) :
    (logout c).token = none ∧
      (logout c).user_info = none ∧
      (logout c).current_room = none ∧
      "Authorization" ∉ (logout c).headers.map Prod.fst ∧
      logout (logout c) = logout c := by
  simp only [logout_eq]
  refine ⟨trivial, trivial, trivial, ?_, ?_⟩
  · simp [List.mem_map, List.mem_filter]
  · simp [Client.mk.injEq, List.filter_filter]

/-- Witness for claim C10 on a concrete logged-in, polling client. -/
theorem claim_C10_logout_witness :
    (logout demoClient).token = none ∧
      (logout demoClient).user_info = none ∧
      (logout demoClient).current_room = none ∧
      "Authorization" ∉ (logout demoClient).headers.map Prod.fst ∧
      logout (logout demoClient) = logout demoClient :=
  claim_C10_logout demoClient

/-- A message dictionary as consumed by _display_message: the three fields it
reads, each possibly absent (dict.get with a default). -/
structure MsgDict where
  timestamp : Option String
  author : Option String
  content : Option String
deriving DecidableEq

/-- Model of _display_message (lines 343-361).  The datetime library is
external, so ISO-8601 parsing is a parameter: fromisoformat returns none
where Python's datetime.fromisoformat raises, and strftime_hms renders a
parsed datetime as HH:MM:SS.  The bare except makes the fallback to the raw
timestamp string total: the function always returns the printed line. -/
def display_message {τ : Type} (fromisoformat : String → Option τ)
    (strftime_hms : τ → String) (m : MsgDict) : String :=
  let timestamp := m.timestamp.getD ""
  let author := m.author.getD "Unknown"
  let content := m.content.getD ""
  let time_str :=
    match fromisoformat (timestamp.replace "Z" "+00:00") with
    | some dt => strftime_hms dt
    | none => timestamp
  "[" ++ time_str ++ "] " ++ author ++ ": " ++ content

/-- Claim C9: for every message whose timestamp does not parse as ISO-8601
(after the Z-to-offset rewrite), _display_message still returns a printed
line and shows the raw timestamp string in place of a formatted time. -/
theorem claim_C9_display_degrades {τ : Type} (fromisoformat : String → Option τ)
    (strftime_hms : τ → String) (m : MsgDict)
    (h : fromisoformat ((m.timestamp.getD "").replace "Z" "+00:00") = none) :
    display_message fromisoformat strftime_hms m =
      "[" ++ m.timestamp.getD "" ++ "] " ++ m.author.getD "Unknown" ++ ": " ++
        m.content.getD "" := by
  simp [display_message, h]

/-- Witness for claim C9: a parser that rejects the malformed timestamp
string, on a concrete message. -/
theorem claim_C9_display_degrades_witness :
    display_message (fun _ => (none : Option Unit)) (fun _ => "")
        ⟨some "not-a-date", some "alice", some "hi"⟩ = "[not-a-date] alice: hi" :=
  claim_C9_display_degrades (fun _ => (none : Option Unit)) (fun _ => "")
    ⟨some "not-a-date", some "alice", some "hi"⟩ rfl

/-- Program points of the polling thread body (poll_messages, lines 310-328),
one per blocking or observable operation, so that other threads can
interleave between them: the while-condition test of self.message_polling,
the get_messages call (the fetch may be slow: its HTTP timeout is 30
seconds), the count-based delivery block, the sleep, and loop exit. -/
inductive PC where
  | check : PC
  | fetching : PC
  | delivering : PC
  | sleeping : PC
  | exited : PC
deriving DecidableEq

/-- Thread-local state of one polling thread: its program point, its local
last_message_count cursor, and the window returned by its latest fetch. -/
structure Worker (α : Type) where
  pc : PC
  cursor : Nat
  window : List α
deriving DecidableEq

/-- A freshly started polling thread: about to test the flag, cursor 0. -/
def Worker.init (α : Type) : Worker α := ⟨PC.check, 0, []⟩

/-- One small step of the polling thread, reading the shared
self.message_polling flag.  fetched is the window the environment answers the
in-flight get_messages call with (an empty list for a failed fetch).  The
second component is the batch of messages the step hands to _display_message.
Note the delivery block runs on whatever the fetch returned without testing
the flag again — exactly as in the source, where the flag is only read at the
top of the while loop. -/
def Worker.step {α : Type} (flag : Bool) (fetched : List α) (t : Worker α) :
    Worker α × List α :=
  match t.pc with
  | .check =>
    (if flag then { t with pc := .fetching } else { t with pc := .exited }, [])
  | .fetching => ({ t with pc := .delivering, window := fetched }, [])
  | .delivering =>
    if t.window.length > t.cursor then
      ({ t with pc := .sleeping, cursor := t.window.length }, t.window.drop t.cursor)
    else ({ t with pc := .sleeping }, [])
  | .sleeping => ({ t with pc := .check }, [])
  | .exited => (t, [])

/-- The system observed by claim C2: the shared flag, one polling thread, and
whether stop_message_polling has returned, recording the messages (and how
many nonempty batches of them) were delivered after that return. -/
structure StopSys (α : Type) where
  flag : Bool
  w : Worker α
  stopReturned : Bool
  postStopDeliveries : List α
  postStopBatches : Nat
deriving DecidableEq

/-- Interleaved actions: one step of the polling thread (with the window its
fetch returns), or the controller running stop_message_polling (lines
335-341) to completion: the flag is cleared and join(timeout=1.0) returns —
possibly by timeout while the thread is still inside a slow fetch or a
2-second sleep — after which the call returns. -/
inductive StopAct (α : Type) where
  | work : List α → StopAct α
  | stopCall : StopAct α

/-- One transition of the stop system. -/
def stopStep {α : Type} (s : StopSys α) : StopAct α → StopSys α
  | .work fetched =>
    let r := s.w.step s.flag fetched
    { s with
      w := r.1
      postStopDeliveries := s.postStopDeliveries ++ (if s.stopReturned then r.2 else [])
      postStopBatches :=
        s.postStopBatches + (if s.stopReturned && !r.2.isEmpty then 1 else 0) }
  | .stopCall => { s with flag := false, stopReturned := true }

/-- A run of the stop system from a freshly started loop. -/
def stopRun {α : Type} (acts : List (StopAct α)) : StopSys α :=
  acts.foldl stopStep ⟨true, Worker.init α, false, [], 0⟩

/-- Claim C2 fails as stated: the thread enters its fetch, stop returns while
the slow fetch is in flight (join times out after 1 second, the fetch HTTP
timeout is 30), then the fetch completes with message 42 and the delivery
block — which does not re-test the flag — hands 42 to _display_message after
stop has returned. -/
theorem claim_C2_counterexample :
    (stopRun [StopAct.work ([] : List Nat), StopAct.stopCall,
        StopAct.work [42], StopAct.work []]).postStopDeliveries ≠ [] := by
  decide

/-- How many nonempty delivery batches a thread at this program point can
still produce once the shared flag is false. -/
def deliveryBudget : PC → Nat
  | PC.fetching => 1
  | PC.delivering => 1
  | _ => 0

/-- Invariant of the stop system: before stop returns no post-stop delivery
is recorded, and after it the flag is down and the recorded post-stop batches
plus what the thread can still deliver never exceed one. -/
def StopInv {α : Type} (s : StopSys α) : Prop :=
  (s.stopReturned = false → s.postStopBatches = 0) ∧
    (s.stopReturned = true →
      s.flag = false ∧ s.postStopBatches + deliveryBudget s.w.pc ≤ 1)

/-- The invariant is preserved by every action. -/
theorem stopStep_inv {α : Type} (s : StopSys α) (a : StopAct α) (h : StopInv s) :
    StopInv (stopStep s a) := by
  obtain ⟨h0, h1⟩ := h
  cases a with
  | stopCall =>
    refine ⟨fun hf => by simp [stopStep] at hf, fun _ => ⟨rfl, ?_⟩⟩
    show s.postStopBatches + deliveryBudget s.w.pc ≤ 1
    cases hsR : s.stopReturned with
    | false =>
      rw [h0 hsR]
      cases s.w.pc <;> simp [deliveryBudget]
    | true => exact (h1 hsR).2
  | work fetched =>
    cases hsR : s.stopReturned with
    | false =>
      refine ⟨fun _ => ?_, fun ht => by simp [stopStep, hsR] at ht⟩
      simp [stopStep, hsR, h0 hsR]
    | true =>
      obtain ⟨hflag, hbound⟩ := h1 hsR
      refine ⟨fun hf => by simp [stopStep, hsR] at hf, fun _ => ⟨by simp [stopStep, hflag], ?_⟩⟩
      simp only [stopStep, hsR]
      cases hpc : s.w.pc with
      | check =>
        have hb : s.postStopBatches ≤ 1 := by simpa [deliveryBudget, hpc] using hbound
        simp [Worker.step, hpc, hflag, deliveryBudget]
        omega
      | fetching =>
        have hb : s.postStopBatches + 1 ≤ 1 := by simpa [deliveryBudget, hpc] using hbound
        simp [Worker.step, hpc, deliveryBudget]
        omega
      | delivering =>
        have hb : s.postStopBatches + 1 ≤ 1 := by simpa [deliveryBudget, hpc] using hbound
        by_cases hlen : s.w.window.length > s.w.cursor
        · simp [Worker.step, hpc, hlen, deliveryBudget]
          omega
        · simp [Worker.step, hpc, hlen, deliveryBudget]
          omega
      | sleeping =>
        have hb : s.postStopBatches ≤ 1 := by simpa [deliveryBudget, hpc] using hbound
        simp [Worker.step, hpc, deliveryBudget]
        omega
      | exited =>
        have hb : s.postStopBatches ≤ 1 := by simpa [deliveryBudget, hpc] using hbound
        simp [Worker.step, hpc, deliveryBudget]
        omega

/-- The invariant holds along any whole run. -/
theorem stopRun_inv {α : Type} :
    ∀ (acts : List (StopAct α)) (s : StopSys α), StopInv s →
      StopInv (acts.foldl stopStep s)
  | [], _, h => h
  | a :: acts, s, h => stopRun_inv acts (stopStep s a) (stopStep_inv s a h)

/-- Claim C2 (amended): after stop_message_polling returns, at most one
further batch of deliveries — the one produced by the fetch cycle already in
flight — can reach _display_message, over every interleaving of thread steps
and the stop call; once the loop next tests its flag it exits for good. -/
theorem claim_C2_bounded_post_stop_delivery {α : Type} (acts : List (StopAct α)) :
    (stopRun acts).postStopBatches ≤ 1 := by
  have h : StopInv (stopRun acts) :=
    stopRun_inv acts ⟨true, Worker.init α, false, [], 0⟩
      ⟨fun _ => rfl, fun ht => nomatch ht⟩
  cases hsR : (stopRun acts).stopReturned with
  | false => rw [h.1 hsR]; omega
  | true =>
    have hb := (h.2 hsR).2
    omega

/-- The system observed by claim C3: the shared flag, the first polling
thread, the second polling thread once it exists, and the deliveries made by
the first thread after the restart and by the second thread. -/
structure RestartSys (α : Type) where
  flag : Bool
  w1 : Worker α
  w2 : Option (Worker α)
  restarted : Bool
  d1After : List α
  d2 : List α
deriving DecidableEq

/-- Interleaved actions for the restart scenario: a step of either thread, or
the second call to start_message_polling (lines 296-333) running to
completion in the schedule where the first thread is one second into its
2-second sleep: the inner stop_message_polling clears the shared flag, its
join(timeout=1.0) expires before the sleeping thread wakes, then the method
sets the same shared flag back to True and starts a fresh thread. -/
inductive RestartAct (α : Type) where
  | work1 : List α → RestartAct α
  | work2 : List α → RestartAct α
  | restartCall : RestartAct α

/-- One transition of the restart system. -/
def restartStep {α : Type} (s : RestartSys α) : RestartAct α → RestartSys α
  | .work1 fetched =>
    let r := s.w1.step s.flag fetched
    { s with
      w1 := r.1
      d1After := s.d1After ++ (if s.restarted then r.2 else []) }
  | .work2 fetched =>
    match s.w2 with
    | none => s
    | some w =>
      let r := w.step s.flag fetched
      { s with w2 := some r.1, d2 := s.d2 ++ r.2 }
  | .restartCall =>
    { s with flag := true, w2 := some (Worker.init α), restarted := true }

/-- A run of the restart system from one freshly started loop. -/
def restartRun {α : Type} (acts : List (RestartAct α)) : RestartSys α :=
  acts.foldl restartStep ⟨true, Worker.init α, none, false, [], []⟩

/-- Claim C3 fails on the code: in the schedule where the first thread is
mid-sleep when start_message_polling is called again, the restart sets the
shared flag back to True before the first thread re-tests it, so the first
thread resumes: afterwards both threads are still running (neither has
exited) and both deliver message 7 — two running polling loops, and the
first delivers after the second was started. -/
theorem claim_C3_restart_bug_eval :
    ((restartRun [RestartAct.work1 ([] : List Nat), RestartAct.work1 [],
        RestartAct.work1 [], RestartAct.restartCall, RestartAct.work1 [],
        RestartAct.work1 [], RestartAct.work1 [7], RestartAct.work1 [],
        RestartAct.work2 [], RestartAct.work2 [7], RestartAct.work2 []]).w1.pc ≠
          PC.exited) ∧
      ((restartRun [RestartAct.work1 ([] : List Nat), RestartAct.work1 [],
        RestartAct.work1 [], RestartAct.restartCall, RestartAct.work1 [],
        RestartAct.work1 [], RestartAct.work1 [7], RestartAct.work1 [],
        RestartAct.work2 [], RestartAct.work2 [7], RestartAct.work2 []]).w2 =
          some ⟨PC.sleeping, 1, [7]⟩) ∧
      ((restartRun [RestartAct.work1 ([] : List Nat), RestartAct.work1 [],
        RestartAct.work1 [], RestartAct.restartCall, RestartAct.work1 [],
        RestartAct.work1 [], RestartAct.work1 [7], RestartAct.work1 [],
        RestartAct.work2 [], RestartAct.work2 [7], RestartAct.work2 []]).d1After =
          [7]) ∧
      ((restartRun [RestartAct.work1 ([] : List Nat), RestartAct.work1 [],
        RestartAct.work1 [], RestartAct.restartCall, RestartAct.work1 [],
        RestartAct.work1 [], RestartAct.work1 [7], RestartAct.work1 [],
        RestartAct.work2 [], RestartAct.work2 [7], RestartAct.work2 []]).d2 =
          [7]) := by
  decide

end LairChat
